import Mathlib

/-!
Shallow embedding of the client-side data-synchronization layer of the
task-manager application: the types of src/types/database.ts, the
synchronization hook src/hooks/useTasks.ts (realtime merge handlers,
createTask retry loop with optimistic fallback, updateTask fallback,
toggleTaskStatus, fetchTasks / fetchCategories) and the error-message
helper getErrorMessage of src/utils.

Effectful TypeScript is embedded as explicit state passing over a
HookState record; the results of remote calls (the supabase queries and
inserts) are passed in as parameters, and timestamps are embedded as
naturals ordered as the source timestamps are.
-/

namespace TaskApp

/-- TaskStatus from src/types/database.ts. -/
inductive TaskStatus where
  | todo
  | in_progress
  | completed
  | cancelled
deriving DecidableEq, Repr

/-- TaskPriority from src/types/database.ts. -/
inductive TaskPriority where
  | low
  | medium
  | high
  | urgent
deriving DecidableEq, Repr

/-- Category row from src/types/database.ts. -/
structure Category where
  id : String
  user_id : String
  name : String
  color : String
  description : Option String
  created_at : Nat
  updated_at : Nat
deriving DecidableEq, Repr

/-- Task row from src/types/database.ts; category is the joined relation.
created_at and updated_at are embedded as naturals carrying the
chronological order of the source timestamps. -/
structure Task where
  id : String
  user_id : String
  category_id : Option String
  title : String
  description : Option String
  status : TaskStatus
  priority : TaskPriority
  due_date : Option String
  completed_at : Option String
  created_at : Nat
  updated_at : Nat
  category : Option Category
deriving DecidableEq, Repr

/-- The local React state of the useTasks hook (the useState cells
tasks, categories, loading, error, syncing). -/
structure HookState where
  tasks : List Task
  categories : List Category
  loading : Bool
  error : Option String
  syncing : Bool
deriving DecidableEq, Repr

/-! ## Realtime merge handlers (useTasks.ts lines 131-208) -/

/-- The setTasks updater inside handleRealtimeInsert (lines 147-154):
if a task with the fetched id already exists the list is returned
unchanged, otherwise the fetched task is prepended. -/
def insertMergeTasks (data : Task) (prev : List Task) : List Task :=
  if prev.any (fun task => task.id == data.id) then prev
  else data :: prev

/-- handleRealtimeInsert (lines 131-161).  userId is the signed-in user
id (user?.id), payloadUserId is payload.new?.user_id, fetched is the
result of refetching the inserted row joined with its category.  On a
user mismatch the handler returns before touching any state; otherwise
syncing is flipped on and back off and, when the fetch succeeded, the
merge updater runs. -/
def handleRealtimeInsert (userId payloadUserId : Option String)
    (fetched : Except String Task) (s : HookState) : HookState :=
  if payloadUserId ≠ userId then s
  else
    match fetched with
    | Except.ok data => { s with tasks := insertMergeTasks data s.tasks, syncing := false }
    | Except.error _ => { s with syncing := false }

/-- The setTasks updater inside handleRealtimeUpdate (lines 185-191):
every task with the fetched id is replaced by the fetched row, all
others are kept. -/
def updateMergeTasks (data : Task) (prev : List Task) : List Task :=
  prev.map (fun task => if task.id == data.id then data else task)

/-- handleRealtimeUpdate (lines 163-200), with the same conventions as
handleRealtimeInsert. -/
def handleRealtimeUpdate (userId payloadUserId : Option String)
    (fetched : Except String Task) (s : HookState) : HookState :=
  if payloadUserId ≠ userId then s
  else
    match fetched with
    | Except.ok data => { s with tasks := updateMergeTasks data s.tasks, syncing := false }
    | Except.error _ => { s with syncing := false }

/-- handleRealtimeDelete (lines 202-208): on a user match the task list
is filtered to the tasks whose id differs from payload.old.id and the
syncing flag is set (it is reset 500ms later, outside this step). -/
def handleRealtimeDelete (userId payloadOldUserId : Option String)
    (deletedId : String) (s : HookState) : HookState :=
  if payloadOldUserId ≠ userId then s
  else { s with tasks := s.tasks.filter (fun task => task.id != deletedId),
                syncing := true }

/-! ## createTask (useTasks.ts lines 211-293) -/

/-- The setTasks updater of the delayed optimistic fallback in
createTask (lines 260-268): prepend the created row unless a task with
its id is already present. -/
def createFallbackTasks (data : Task) (prev : List Task) : List Task :=
  if prev.any (fun task => task.id == data.id) then prev
  else data :: prev

/-- The error shape consumed by getErrorMessage in src/utils
(networkUtils): a JS Error with the optional isTimeout and status
fields; a plain Error has isTimeout false and no status. -/
structure NetworkError where
  message : String
  isTimeout : Bool
  status : Option Nat
deriving DecidableEq, Repr

def msgTimeout : String := "Request timed out. Please check your connection and try again."

def msgFailedFetch : String := "Unable to connect. Please check your internet connection."

def msg400 : String := "Invalid request. Please check your input and try again."

def msg401 : String := "You need to sign in to continue."

def msg403 : String := "You don\x27t have permission to do this."

def msg404 : String := "The requested resource was not found."

def msg429 : String := "Too many requests. Please wait a moment and try again."

def msg500 : String := "Server error. We\x27re working to fix this."

def msg503 : String := "Service temporarily unavailable. Please try again later."

def msg5xx : String := "Server error. Please try again later."

def msgGeneric : String := "Something went wrong. Please try again."

def failedFetchNeedle : String := "Failed to fetch"

/-- Char-list helper: the first list starts with the second. -/
def charsStartWith : List Char → List Char → Bool
  | _, [] => true
  | [], _ :: _ => false
  | a :: as, b :: bs => a == b && charsStartWith as bs

/-- Char-list helper: the first list contains the second as a
contiguous run. -/
def charsContain : List Char → List Char → Bool
  | [], pat => pat.isEmpty
  | a :: rest, pat => charsStartWith (a :: rest) pat || charsContain rest pat

/-- String.prototype.includes as used by getErrorMessage. -/
def strIncludes (s pat : String) : Bool := charsContain s.toList pat.toList

/-- getErrorMessage from src/utils (networkUtils lines 264-298): map an
error to a user-friendly message.  A zero status is falsy in JS and
skips the switch, landing on the generic message, which coincides with
the catch-all arm here. -/
def getErrorMessage (e : NetworkError) : String :=
  if e.isTimeout then msgTimeout
  else if strIncludes e.message failedFetchNeedle then msgFailedFetch
  else
    match e.status with
    | some 400 => msg400
    | some 401 => msg401
    | some 403 => msg403
    | some 404 => msg404
    | some 429 => msg429
    | some 500 => msg500
    | some 503 => msg503
    | some st => if 500 ≤ st then msg5xx else msgGeneric
    | none => msgGeneric

def timeoutErrorMsg : String := "Creating task is taking longer than expected. Please try again."

/-- The rejection value of the 10 second timeout promise (lines
247-251): a plain Error. -/
def timeoutError : NetworkError :=
  { message := timeoutErrorMsg, isTimeout := false, status := none }

/-- Promise.race of one createTaskOperation attempt against the 10
second timeout (lines 245-252): the operation result stands when the
operation settles within 10000 ms, otherwise the timeout rejection
wins. -/
def raceWithTimeout (durationMs : Nat) (result : Except NetworkError Task) :
    Except NetworkError Task :=
  if durationMs < 10000 then result else Except.error timeoutError

def maxRetries : Nat := 3

/-- The retry for-loop of createTask (lines 240-286).  outcomes n is the
settled result of the raced attempt number n; the second argument is
the current attempt number, the third how many further attempts remain
after it (maxRetries - attempt).  With no attempt remaining the current
outcome is final (a success returns it, a failure is thrown as
lastError); otherwise a failure waits 1000 * 2 ^ (attempt - 1) ms and
retries.  Returns the final outcome, the number of the last attempt
made, and the list of backoff delays waited, in order. -/
def retryFromAux (outcomes : Nat → Except NetworkError Task) :
    Nat → Nat → Except NetworkError Task × Nat × List Nat
  | attempt, 0 => (outcomes attempt, attempt, [])
  | attempt, remaining + 1 =>
    match outcomes attempt with
    | Except.ok d => (Except.ok d, attempt, [])
    | Except.error _ =>
      let r := retryFromAux outcomes (attempt + 1) remaining
      (r.1, r.2.1, 1000 * 2 ^ (attempt - 1) :: r.2.2)

def signInMsg : String := "Please sign in to create tasks"

/-- createTask (lines 211-293): without a user it raises at once,
touching nothing; otherwise the retry loop runs and a final failure is
converted through getErrorMessage, stored in the error state and
re-raised.  Returns (result, attempts made, backoff delays, new
state); a result error carries the message of the raised Error. -/
def createTask (user : Option String) (outcomes : Nat → Except NetworkError Task)
    (s : HookState) : Except String Task × Nat × List Nat × HookState :=
  match user with
  | none => (Except.error signInMsg, 0, [], s)
  | some _ =>
    match retryFromAux outcomes 1 (maxRetries - 1) with
    | (Except.ok d, n, ds) => (Except.ok d, n, ds, s)
    | (Except.error e, n, ds) =>
      (Except.error (getErrorMessage e), n, ds,
        { s with error := some (getErrorMessage e) })

/-! ## updateTask fallback and toggleTaskStatus (lines 296-414) -/

/-- The setTasks updater of the delayed optimistic fallback in
updateTask (lines 318-342): a task with the updated id is kept when its
status, title and description already match the returned row, and is
otherwise replaced wholesale by the returned row; other tasks are
kept. -/
def updateFallbackTasks (data : Task) (prev : List Task) : List Task :=
  prev.map (fun task =>
    if task.id == data.id then
      if task.status == data.status && task.title == data.title
          && task.description == data.description then task
      else data
    else task)

/-- The fallback step of updateTask (lines 316-344): skipped entirely
when skipOptimistic is set. -/
def updateTaskFallback (skipOptimistic : Bool) (data : Task) (prev : List Task) :
    List Task :=
  if skipOptimistic then prev else updateFallbackTasks data prev

def toggleFailedMsg : String := "Failed to update task status"

/-- toggleTaskStatus (lines 391-414): find the task by id (a no-op when
absent), optimistically flip its status between completed and todo,
then run the database update with skipOptimistic set; dbOk tells
whether that update succeeded.  On failure the status is reverted and
the error state set (updateTask stores its own message first,
toggleTaskStatus then overwrites it). -/
def toggleTaskStatus (id : String) (dbOk : Bool) (s : HookState) : HookState :=
  match s.tasks.find? (fun t => t.id == id) with
  | none => s
  | some task =>
    let newStatus := if task.status == TaskStatus.completed then TaskStatus.todo
                     else TaskStatus.completed
    let s1 : HookState :=
      { s with tasks := s.tasks.map (fun t =>
          if t.id == id then { t with status := newStatus } else t) }
    if dbOk then s1
    else { s1 with
      tasks := s1.tasks.map (fun t =>
        if t.id == id then { t with status := task.status } else t),
      error := some toggleFailedMsg }

/-! ## fetchTasks and fetchCategories (lines 38-128) -/

/-- The tasks select of fetchTasks (lines 79-86): the rows of the tasks
table with the given user_id, ordered by created_at descending. -/
def tasksQuery (db : List Task) (uid : String) : List Task :=
  List.insertionSort (fun a b => b.created_at ≤ a.created_at)
    (db.filter (fun t => t.user_id == uid))

/-- The categories select of fetchCategories (lines 111-115): the rows
of the categories table with the given user_id, ordered by name. -/
def categoriesQuery (db : List Category) (uid : String) : List Category :=
  List.insertionSort (fun a b => a.name ≤ b.name)
    (db.filter (fun c => c.user_id == uid))

/-- fetchTasks (lines 38-100): without a user it returns at once,
touching nothing; otherwise the successfully fetched rows replace the
tasks state. -/
def fetchTasks (user : Option String) (db : List Task) (s : HookState) : HookState :=
  match user with
  | none => s
  | some uid => { s with tasks := tasksQuery db uid }

/-- fetchCategories (lines 103-128), same conventions as fetchTasks. -/
def fetchCategories (user : Option String) (db : List Category) (s : HookState) :
    HookState :=
  match user with
  | none => s
  | some uid => { s with categories := categoriesQuery db uid }

/-- Concrete task used for evaluating the definitions. -/
def sampleTask : Task :=
  { id := "t1", user_id := "u1", category_id := none, title := "a",
    description := none, status := TaskStatus.todo,
    priority := TaskPriority.low, due_date := none,
    completed_at := none, created_at := 0, updated_at := 0,
    category := none }

/-- sampleTask with only the priority changed, as returned by an update
that set only the priority field. -/
def samplePriorityUpdated : Task := { sampleTask with priority := TaskPriority.high }

/-- Concrete error with a 503 status used for evaluating the
definitions. -/
def sampleNetError : NetworkError :=
  { message := "boom", isTimeout := false, status := some 503 }

/-- Concrete empty hook state used for evaluating the definitions. -/
def emptyState : HookState :=
  { tasks := [], categories := [], loading := false, error := none, syncing := false }

instance : IsTotal Task (fun a b => b.created_at ≤ a.created_at) :=
  ⟨fun a b => Nat.le_total b.created_at a.created_at⟩

instance : IsTrans Task (fun a b => b.created_at ≤ a.created_at) :=
  ⟨fun _ _ _ hab hbc => le_trans hbc hab⟩

instance : IsTotal Category (fun a b => a.name ≤ b.name) :=
  ⟨fun a b => le_total a.name b.name⟩

instance : IsTrans Category (fun a b => a.name ≤ b.name) :=
  ⟨fun _ _ _ hab hbc => le_trans hab hbc⟩

/-! ## Helper lemmas -/

theorem any_id_beq_iff (l : List Task) (i : String) :
    (l.any (fun t => t.id == i)) = true ↔ i ∈ l.map Task.id := by
  rw [List.any_eq_true]
  constructor
  · rintro ⟨t, ht, he⟩
    exact List.mem_map.mpr ⟨t, ht, beq_iff_eq.mp he⟩
  · intro h
    rcases List.mem_map.mp h with ⟨t, ht, he⟩
    exact ⟨t, ht, beq_iff_eq.mpr he⟩

theorem map_eq_self_of_fixed {α : Type} (f : α → α) (l : List α)
    (h : ∀ x ∈ l, f x = x) : l.map f = l := by
  induction l with
  | nil => rfl
  | cons a tl ih =>
    simp only [List.map_cons, h a (List.mem_cons_self a tl)]
    rw [ih (fun x hx => h x (List.mem_cons_of_mem a hx))]

theorem insertMergeTasks_of_not_mem (data : Task) (prev : List Task)
    (hnm : data.id ∉ prev.map Task.id) :
    insertMergeTasks data prev = data :: prev := by
  have hany : (prev.any (fun t => t.id == data.id)) = false :=
    Bool.eq_false_iff.mpr (fun hc => hnm ((any_id_beq_iff _ _).mp hc))
  simp [insertMergeTasks, hany]

theorem insertMergeTasks_of_mem (data : Task) (prev : List Task)
    (hm : data.id ∈ prev.map Task.id) :
    insertMergeTasks data prev = prev := by
  have hany : (prev.any (fun t => t.id == data.id)) = true :=
    (any_id_beq_iff _ _).mpr hm
  simp [insertMergeTasks, hany]

theorem mem_id_insertMergeTasks (data : Task) (prev : List Task) :
    data.id ∈ (insertMergeTasks data prev).map Task.id := by
  by_cases hm : data.id ∈ prev.map Task.id
  · rw [insertMergeTasks_of_mem data prev hm]
    exact hm
  · rw [insertMergeTasks_of_not_mem data prev hm, List.map_cons]
    exact List.mem_cons_self _ _

theorem nodup_insertMergeTasks (data : Task) (prev : List Task)
    (hnd : (prev.map Task.id).Nodup) :
    ((insertMergeTasks data prev).map Task.id).Nodup := by
  by_cases hm : data.id ∈ prev.map Task.id
  · rw [insertMergeTasks_of_mem data prev hm]
    exact hnd
  · rw [insertMergeTasks_of_not_mem data prev hm, List.map_cons, List.nodup_cons]
    exact ⟨hm, hnd⟩

/-! ## Theorems for the realtime merge claims -/

/-- C1: merging a remote INSERT event (handleRealtimeInsert) for a
successfully fetched task belonging to the signed-in user prepends the
task when its id is absent from the local list, leaves the list
unchanged when its id is already present, and never introduces a
duplicate id. -/
theorem C1_insert_merge (uid : String) (pUid : Option String) (data : Task)
    (s : HookState) (hp : pUid = some uid) (hu : data.user_id = uid) :
    (data.id ∉ s.tasks.map Task.id →
      (handleRealtimeInsert (some uid) pUid (Except.ok data) s).tasks = data :: s.tasks) ∧
    (data.id ∈ s.tasks.map Task.id →
      (handleRealtimeInsert (some uid) pUid (Except.ok data) s).tasks = s.tasks) ∧
    ((s.tasks.map Task.id).Nodup →
      (((handleRealtimeInsert (some uid) pUid (Except.ok data) s).tasks.map Task.id)).Nodup) := by
  subst hp
  have htasks : (handleRealtimeInsert (some uid) (some uid) (Except.ok data) s).tasks
      = insertMergeTasks data s.tasks := by
    simp [handleRealtimeInsert]
  refine ⟨?_, ?_, ?_⟩
  · intro hnm
    rw [htasks]
    exact insertMergeTasks_of_not_mem data s.tasks hnm
  · intro hm
    rw [htasks]
    exact insertMergeTasks_of_mem data s.tasks hm
  · intro hnd
    rw [htasks]
    exact nodup_insertMergeTasks data s.tasks hnd

/-- C1 witness: concrete run of the theorem on the empty state. -/
theorem C1_insert_merge_witness :
    (handleRealtimeInsert (some "u1") (some "u1") (Except.ok sampleTask)
      emptyState).tasks = [sampleTask] := by
  have h := C1_insert_merge "u1" (some "u1") sampleTask emptyState rfl rfl
  exact h.1 (by decide)

/-- C2: merging a remote UPDATE event (handleRealtimeUpdate) for a
successfully fetched row belonging to the signed-in user replaces every
task carrying the fetched id by the fetched row, keeps every other task
unchanged in place, preserves the length of the list, and leaves the
task list unchanged when the fetched id is absent from it. -/
theorem C2_update_merge (uid : String) (pUid : Option String) (data : Task)
    (s : HookState) (hp : pUid = some uid) (hu : data.user_id = uid) :
    (handleRealtimeUpdate (some uid) pUid (Except.ok data) s).tasks.length
      = s.tasks.length ∧
    (∀ i (h : i < s.tasks.length)
       (h2 : i < (handleRealtimeUpdate (some uid) pUid (Except.ok data) s).tasks.length),
       (handleRealtimeUpdate (some uid) pUid (Except.ok data) s).tasks[i]
         = if (s.tasks[i]).id = data.id then data else s.tasks[i]) ∧
    (data.id ∉ s.tasks.map Task.id →
       (handleRealtimeUpdate (some uid) pUid (Except.ok data) s).tasks = s.tasks) := by
  subst hp
  have htasks : (handleRealtimeUpdate (some uid) (some uid) (Except.ok data) s).tasks
      = updateMergeTasks data s.tasks := by
    simp [handleRealtimeUpdate]
  refine ⟨?_, ?_, ?_⟩
  · rw [htasks]
    simp [updateMergeTasks]
  · intro i h h2
    simp only [htasks, updateMergeTasks, List.getElem_map]
    by_cases hc : (s.tasks[i]).id = data.id
    · simp [hc]
    · simp [hc]
  · intro hnm
    rw [htasks]
    exact map_eq_self_of_fixed _ _ (fun t ht => by
      have hne : t.id ≠ data.id := fun he => hnm (List.mem_map.mpr ⟨t, ht, he⟩)
      simp [hne])

/-- C2 witness: an update of the priority of the only local task. -/
theorem C2_update_merge_witness :
    (handleRealtimeUpdate (some "u1") (some "u1") (Except.ok samplePriorityUpdated)
      { emptyState with tasks := [sampleTask] }).tasks[0]?
      = some samplePriorityUpdated ∧
    (handleRealtimeUpdate (some "u1") (some "u1") (Except.ok samplePriorityUpdated)
      { emptyState with tasks := [sampleTask] }).tasks.length = 1 := by
  have h := C2_update_merge "u1" (some "u1") samplePriorityUpdated
    { emptyState with tasks := [sampleTask] } rfl rfl
  have h0 : 0 < (handleRealtimeUpdate (some "u1") (some "u1")
      (Except.ok samplePriorityUpdated)
      { emptyState with tasks := [sampleTask] }).tasks.length := by
    rw [h.1]
    decide
  have helt := h.2.1 0 (by decide) h0
  refine ⟨?_, h.1⟩
  rw [List.getElem?_eq_getElem h0, helt]
  decide

/-- C3: merging a remote DELETE event (handleRealtimeDelete) for the
signed-in user filters the task list to the tasks whose id differs from
the deleted id; the result is a sublist (original order retained),
every task with a different id is kept, and a delete of an absent id
leaves the list unchanged. -/
theorem C3_delete_merge (uid : String) (pUid : Option String) (delId : String)
    (s : HookState) (hp : pUid = some uid) :
    (handleRealtimeDelete (some uid) pUid delId s).tasks
      = s.tasks.filter (fun task => task.id != delId) ∧
    ((handleRealtimeDelete (some uid) pUid delId s).tasks).Sublist s.tasks ∧
    (∀ t ∈ s.tasks, t.id ≠ delId →
      t ∈ (handleRealtimeDelete (some uid) pUid delId s).tasks) ∧
    (delId ∉ s.tasks.map Task.id →
      (handleRealtimeDelete (some uid) pUid delId s).tasks = s.tasks) := by
  subst hp
  have htasks : (handleRealtimeDelete (some uid) (some uid) delId s).tasks
      = s.tasks.filter (fun task => task.id != delId) := by
    simp [handleRealtimeDelete]
  refine ⟨htasks, ?_, ?_, ?_⟩
  · rw [htasks]
    exact List.filter_sublist s.tasks
  · intro t ht hne
    rw [htasks]
    refine List.mem_filter.mpr ⟨ht, ?_⟩
    simpa using hne
  · intro hnm
    rw [htasks]
    apply List.filter_eq_self.mpr
    intro a ha
    have hne : a.id ≠ delId := fun he => hnm (List.mem_map.mpr ⟨a, ha, he⟩)
    simpa using hne

/-- C3 witness: deleting the only local task empties the list. -/
theorem C3_delete_merge_witness :
    (handleRealtimeDelete (some "u1") (some "u1") "t1"
      { emptyState with tasks := [sampleTask] }).tasks = [] := by
  have h := C3_delete_merge "u1" (some "u1") "t1"
    { emptyState with tasks := [sampleTask] } rfl
  rw [h.1]
  decide

/-- C5: the delayed optimistic fallback of createTask prepends the
created row exactly when its id is absent and is the identity when it
is present; run after the realtime insert merge of the same row it
changes nothing, so merge followed by fallback equals the merge alone
and the combination never duplicates an id. -/
theorem C5_create_fallback_idempotent (data : Task) (prev : List Task) :
    createFallbackTasks data (insertMergeTasks data prev)
      = insertMergeTasks data prev ∧
    (data.id ∉ prev.map Task.id → createFallbackTasks data prev = data :: prev) ∧
    (data.id ∈ prev.map Task.id → createFallbackTasks data prev = prev) ∧
    ((prev.map Task.id).Nodup →
      ((createFallbackTasks data (insertMergeTasks data prev)).map Task.id).Nodup) := by
  have heq : ∀ (d : Task) (p : List Task), createFallbackTasks d p = insertMergeTasks d p :=
    fun _ _ => rfl
  refine ⟨?_, ?_, ?_, ?_⟩
  · rw [heq]
    exact insertMergeTasks_of_mem data _ (mem_id_insertMergeTasks data prev)
  · intro hnm
    rw [heq]
    exact insertMergeTasks_of_not_mem data prev hnm
  · intro hm
    rw [heq]
    exact insertMergeTasks_of_mem data prev hm
  · intro hnd
    rw [heq, insertMergeTasks_of_mem data _ (mem_id_insertMergeTasks data prev)]
    exact nodup_insertMergeTasks data prev hnd

/-- C5 witness: the fallback prepends into the empty list. -/
theorem C5_create_fallback_idempotent_witness :
    createFallbackTasks sampleTask [] = [sampleTask] :=
  (C5_create_fallback_idempotent sampleTask []).2.1 (by decide)

/-- C9: a realtime event whose payload user id differs from the
signed-in user id leaves the whole hook state untouched for all three
handlers; each returns before modifying any state cell. -/
theorem C9_foreign_user_noninterference (uid : String) (pUid : Option String)
    (fetchedI fetchedU : Except String Task) (delId : String) (s : HookState)
    (h : pUid ≠ some uid) :
    handleRealtimeInsert (some uid) pUid fetchedI s = s ∧
    handleRealtimeUpdate (some uid) pUid fetchedU s = s ∧
    handleRealtimeDelete (some uid) pUid delId s = s := by
  refine ⟨?_, ?_, ?_⟩ <;>
    simp [handleRealtimeInsert, handleRealtimeUpdate, handleRealtimeDelete, h]

/-- C9 witness: events of user u2 do not touch the state of user u1. -/
theorem C9_foreign_user_noninterference_witness :
    handleRealtimeInsert (some "u1") (some "u2") (Except.ok sampleTask) emptyState
      = emptyState ∧
    handleRealtimeUpdate (some "u1") (some "u2") (Except.ok sampleTask) emptyState
      = emptyState ∧
    handleRealtimeDelete (some "u1") (some "u2") "t1" emptyState = emptyState :=
  C9_foreign_user_noninterference "u1" (some "u2") (Except.ok sampleTask)
    (Except.ok sampleTask) "t1" emptyState (by decide)

theorem retryFromAux_attempt_le (outcomes : Nat → Except NetworkError Task) :
    ∀ (remaining attempt : Nat),
      (retryFromAux outcomes attempt remaining).2.1 ≤ attempt + remaining
  | 0, attempt => by simp [retryFromAux]
  | remaining + 1, attempt => by
    cases houtcome : outcomes attempt with
    | ok d => simp [retryFromAux, houtcome]
    | error e =>
      simp only [retryFromAux, houtcome]
      have hrec := retryFromAux_attempt_le outcomes remaining (attempt + 1)
      omega

/-- C4: createTask attempts the insert at most maxRetries = 3 times,
each attempt raced against a 10 second timeout; after a failed attempt
other than the last it waits 1000 * 2 ^ (attempt - 1) ms (1s then 2s);
after the third failure it raises the last error converted through
getErrorMessage and stores that message in the error state; with no
signed-in user it raises at once without attempting anything. -/
theorem C4_createTask_retry (uid : String) (s : HookState)
    (outcomes : Nat → Except NetworkError Task) :
    (∀ durationMs result, 10000 ≤ durationMs →
      raceWithTimeout durationMs result = Except.error timeoutError) ∧
    (∀ durationMs result, durationMs < 10000 →
      raceWithTimeout durationMs result = result) ∧
    createTask none outcomes s = (Except.error signInMsg, 0, [], s) ∧
    (createTask (some uid) outcomes s).2.1 ≤ maxRetries ∧
    (∀ d, outcomes 1 = Except.ok d →
      createTask (some uid) outcomes s = (Except.ok d, 1, [], s)) ∧
    (∀ e1 d, outcomes 1 = Except.error e1 → outcomes 2 = Except.ok d →
      createTask (some uid) outcomes s = (Except.ok d, 2, [1000], s)) ∧
    (∀ e1 e2 d, outcomes 1 = Except.error e1 → outcomes 2 = Except.error e2 →
      outcomes 3 = Except.ok d →
      createTask (some uid) outcomes s = (Except.ok d, 3, [1000, 2000], s)) ∧
    (∀ e1 e2 e3, outcomes 1 = Except.error e1 → outcomes 2 = Except.error e2 →
      outcomes 3 = Except.error e3 →
      createTask (some uid) outcomes s
        = (Except.error (getErrorMessage e3), 3, [1000, 2000],
           { s with error := some (getErrorMessage e3) })) := by
  refine ⟨?_, ?_, rfl, ?_, ?_, ?_, ?_, ?_⟩
  · intro durationMs result hdur
    have hlt : ¬ durationMs < 10000 := by omega
    simp [raceWithTimeout, hlt]
  · intro durationMs result hdur
    simp [raceWithTimeout, hdur]
  · have hb := retryFromAux_attempt_le outcomes (maxRetries - 1) 1
    rcases hr : retryFromAux outcomes 1 (maxRetries - 1) with ⟨r, n, ds⟩
    rw [hr] at hb
    cases r with
    | ok d =>
      simp only [createTask, hr]
      simpa [maxRetries] using hb
    | error e =>
      simp only [createTask, hr]
      simpa [maxRetries] using hb
  · intro d h1
    simp [createTask, maxRetries, retryFromAux, h1]
  · intro e1 d h1 h2
    simp [createTask, maxRetries, retryFromAux, h1, h2]
  · intro e1 e2 d h1 h2 h3
    simp [createTask, maxRetries, retryFromAux, h1, h2, h3]
  · intro e1 e2 e3 h1 h2 h3
    simp [createTask, maxRetries, retryFromAux, h1, h2, h3]

/-- C4 witness: three failing attempts with a 503 error produce the 1s
and 2s backoffs and store the user-friendly 503 message. -/
theorem C4_createTask_retry_witness :
    createTask (some "u1") (fun _ => Except.error sampleNetError) emptyState
      = (Except.error msg503, 3, [1000, 2000],
         { emptyState with error := some msg503 }) := by
  have h := C4_createTask_retry "u1" emptyState (fun _ => Except.error sampleNetError)
  have hc := h.2.2.2.2.2.2.2 sampleNetError sampleNetError sampleNetError rfl rfl rfl
  have hmsg : getErrorMessage sampleNetError = msg503 := by decide
  rw [hc, hmsg]

/-- C6 counterexample to the claim as stated: an update that changed
only the priority field.  The local task differs from the returned row
in a field updatable via UpdateTaskData, yet the delayed fallback
(skipOptimistic false) keeps the stale local task instead of replacing
it, because the fallback compares only status, title and
description. -/
theorem C6_counterexample :
    sampleTask.id = samplePriorityUpdated.id ∧
    sampleTask.priority ≠ samplePriorityUpdated.priority ∧
    updateTaskFallback false samplePriorityUpdated [sampleTask] = [sampleTask] ∧
    [sampleTask] ≠ [samplePriorityUpdated] := by decide

/-- C6 amended: the delayed fallback of updateTask keeps a task with
the updated id exactly when its status, title and description already
match the returned row, and otherwise replaces it wholesale with the
returned row; updates visible only in category_id, priority or
due_date are therefore not applied by the fallback; tasks with other
ids are kept, the length is preserved, and with skipOptimistic set the
fallback does nothing. -/
theorem C6_update_fallback (data : Task) (prev : List Task) :
    (updateTaskFallback false data prev).length = prev.length ∧
    (∀ i (h : i < prev.length) (h2 : i < (updateTaskFallback false data prev).length),
      (updateTaskFallback false data prev)[i]
        = if prev[i].id = data.id then
            (if prev[i].status = data.status ∧ prev[i].title = data.title ∧
                prev[i].description = data.description then prev[i] else data)
          else prev[i]) ∧
    updateTaskFallback true data prev = prev := by
  refine ⟨?_, ?_, rfl⟩
  · simp [updateTaskFallback, updateFallbackTasks]
  · intro i h h2
    simp only [updateTaskFallback, Bool.false_eq_true, if_false, updateFallbackTasks,
      List.getElem_map]
    by_cases hid : prev[i].id = data.id
    · by_cases hsm : prev[i].status = data.status
      · by_cases htm : prev[i].title = data.title
        · by_cases hdm : prev[i].description = data.description
          · simp [hid, hsm, htm, hdm]
          · simp [hid, hsm, htm, hdm]
        · simp [hid, hsm, htm]
      · simp [hid, hsm]
    · simp [hid]

/-- C6 amended witness: a priority-only update is kept stale by the
fallback. -/
theorem C6_update_fallback_witness :
    (updateTaskFallback false samplePriorityUpdated [sampleTask])[0]?
      = some sampleTask := by
  have h := C6_update_fallback samplePriorityUpdated [sampleTask]
  have h0 : 0 < (updateTaskFallback false samplePriorityUpdated [sampleTask]).length := by
    rw [h.1]
    decide
  have helt := h.2.1 0 (by decide) h0
  rw [List.getElem?_eq_getElem h0, helt]
  decide

/-- C7: for a signed-in user fetchTasks stores exactly the rows of the
tasks table belonging to the user (a permutation of the table filtered
to the user) ordered by created_at descending, and fetchCategories
stores exactly the rows of the categories table belonging to the user
ordered by name; with no signed-in user both return without modifying
any state. -/
theorem C7_fetch (uid : String) (db : List Task) (cdb : List Category) (s : HookState) :
    ((fetchTasks (some uid) db s).tasks).Perm
        (db.filter (fun t => t.user_id == uid)) ∧
    ((fetchTasks (some uid) db s).tasks).Sorted
        (fun a b => b.created_at ≤ a.created_at) ∧
    (∀ t, t ∈ (fetchTasks (some uid) db s).tasks ↔ t ∈ db ∧ t.user_id = uid) ∧
    ((fetchCategories (some uid) cdb s).categories).Perm
        (cdb.filter (fun c => c.user_id == uid)) ∧
    ((fetchCategories (some uid) cdb s).categories).Sorted
        (fun a b => a.name ≤ b.name) ∧
    (∀ c, c ∈ (fetchCategories (some uid) cdb s).categories ↔
        c ∈ cdb ∧ c.user_id = uid) ∧
    fetchTasks none db s = s ∧
    fetchCategories none cdb s = s := by
  refine ⟨?_, ?_, ?_, ?_, ?_, ?_, rfl, rfl⟩
  · simp only [fetchTasks, tasksQuery]
    exact List.perm_insertionSort _ _
  · simp only [fetchTasks, tasksQuery]
    exact List.sorted_insertionSort _ _
  · intro t
    simp [fetchTasks, tasksQuery, List.mem_filter]
  · simp only [fetchCategories, categoriesQuery]
    exact List.perm_insertionSort _ _
  · simp only [fetchCategories, categoriesQuery]
    exact List.sorted_insertionSort _ _
  · intro c
    simp [fetchCategories, categoriesQuery, List.mem_filter]

/-- C8: toggleTaskStatus on an id present in a duplicate-free task list
immediately flips that task status (completed to todo, anything else to
completed) leaving every other task and every other field unchanged; if
the database update fails the task list is restored exactly and only
the error message remains; an absent id is a no-op. -/
theorem C8_toggle (id : String) (s : HookState)
    (hnd : (s.tasks.map Task.id).Nodup) :
    (id ∉ s.tasks.map Task.id → ∀ dbOk, toggleTaskStatus id dbOk s = s) ∧
    (∀ task, s.tasks.find? (fun t => t.id == id) = some task →
      ((toggleTaskStatus id true s).tasks
          = s.tasks.map (fun t =>
              if t.id = id then
                { t with status := if task.status = TaskStatus.completed
                                   then TaskStatus.todo else TaskStatus.completed }
              else t) ∧
        (toggleTaskStatus id true s).error = s.error ∧
        (toggleTaskStatus id true s).categories = s.categories) ∧
      ((toggleTaskStatus id false s).tasks = s.tasks ∧
        (toggleTaskStatus id false s).error = some toggleFailedMsg ∧
        (toggleTaskStatus id false s).categories = s.categories)) := by
  constructor
  · intro hnm dbOk
    have hfind : s.tasks.find? (fun t => t.id == id) = none := by
      apply List.find?_eq_none.mpr
      intro a ha
      have hne : a.id ≠ id := fun he => hnm (List.mem_map.mpr ⟨a, ha, he⟩)
      simpa using hne
    simp [toggleTaskStatus, hfind]
  · intro task hfind
    have htaskmem : task ∈ s.tasks := List.mem_of_find?_eq_some hfind
    have htaskid : task.id = id := by
      have := List.find?_some hfind
      simpa using this
    have huniq : ∀ t ∈ s.tasks, t.id = id → t = task := by
      intro t ht hte
      exact List.inj_on_of_nodup_map hnd ht htaskmem (by rw [hte, htaskid])
    constructor
    · refine ⟨?_, ?_, ?_⟩
      · simp only [toggleTaskStatus, hfind, if_true]
        apply List.map_congr_left
        intro t ht
        by_cases hc : t.id = id
        · simp [hc]
        · simp [hc]
      · simp [toggleTaskStatus, hfind]
      · simp [toggleTaskStatus, hfind]
    · refine ⟨?_, ?_, ?_⟩
      · simp only [toggleTaskStatus, hfind, Bool.false_eq_true, if_false, List.map_map]
        apply map_eq_self_of_fixed
        intro t ht
        by_cases hc : t.id = id
        · have hteq : t = task := huniq t ht hc
          have hst : t.status = task.status := by rw [← hteq]
          have hb1 : (t.id == id) = true := by simpa using hc
          simp only [Function.comp_apply, hb1, if_true, ← hst]
        · have hb1 : (t.id == id) = false := by simp [hc]
          simp only [Function.comp_apply, hb1, Bool.false_eq_true, if_false]
      · simp [toggleTaskStatus, hfind]
      · simp [toggleTaskStatus, hfind]

/-- C8 witness: a failing toggle on the only task restores the list and
leaves only the error message. -/
theorem C8_toggle_witness :
    (toggleTaskStatus "t1" false { emptyState with tasks := [sampleTask] }).tasks
      = [sampleTask] ∧
    (toggleTaskStatus "t1" false { emptyState with tasks := [sampleTask] }).error
      = some toggleFailedMsg := by
  have h := C8_toggle "t1" { emptyState with tasks := [sampleTask] } (by decide)
  have hc := (h.2 sampleTask (by decide)).2
  exact ⟨hc.1, hc.2.1⟩

end TaskApp
